import Mathlib

/-!
Shallow embedding of the XTranscribe POC core (Next.js/React application) in Lean 4.

Modelling conventions:
* JavaScript numbers that carry times/durations are modelled as rationals (ℚ);
  the simulated transcription progress percentage is a natural number, as the
  source only ever assigns the integer values 0, 5, 10, …, 95, 100 to it.
* React `useState` setters are modelled as sequential record updates on an
  explicit state record; within one event handler the setters are applied in
  source order, which matches React's update-queue semantics for plain value
  updates (the last write to a field wins).
* The `setInterval` progress simulator is modelled by a single optional timer
  slot `progressInterval : Option ℕ` holding the interval callback's captured
  counter variable `currentProgress`; one firing of the callback is the
  function `progressTick`.
* Async handlers are split at their `await` points: `handleProcessFileStart`
  is the synchronous prefix of `handleProcessFile`, and
  `handleProcessFileSettle` is the `try`-continuation / `catch` / `finally`
  code that runs (in a single microtask, hence atomically for observers) once
  the transcription call settles with a result or a thrown error.
* Toast notifications are modelled as explicit `Toast` values returned next to
  the new state.
-/

namespace XTranscribe

/-- JavaScript's `String.prototype.trim()`: drop whitespace from both ends.
Defined structurally over the character list so that it is fully
kernel-computable (the library's `String.trim` is defined by well-founded
recursion and does not reduce). -/
def jsTrim (s : String) : String :=
  ⟨((s.data.dropWhile Char.isWhitespace).reverse.dropWhile Char.isWhitespace).reverse⟩

/-- Segment record `{ start, end, text }` from `page.tsx` / `transcript-editor.tsx`. -/
structure TranscriptSegment where
  start : ℚ
  «end» : ℚ
  text : String
deriving DecidableEq, Repr

/-- Output type of the transcription capability (`TranscribeAudioOutputSchema`
in `transcribe-audio-flow.ts`): full text plus timed segments. -/
structure TranscribeAudioOutput where
  text : String
  segments : List TranscriptSegment
deriving DecidableEq, Repr

/-- Internal prompt-output type (`TranscribeAudioPromptOutputInternalSchema`):
the `text` field may be absent. -/
structure TranscribeAudioPromptOutput where
  text : Option String
  segments : List TranscriptSegment
deriving DecidableEq, Repr

/-- The body of `transcribeAudioFlow` (`transcribe-audio-flow.ts`), as a
function of the settled prompt output.  `none` models a null/undefined prompt
output, which the flow turns into a thrown error (wrapped by the `catch`
block into the `Transcription failed: …` message); the AI call itself is an
external capability and is modelled by this parameter. -/
def transcribeAudioFlow (promptOutput : Option TranscribeAudioPromptOutput) :
    Except String TranscribeAudioOutput :=
  match promptOutput with
  | none =>
      .error "Transcription failed: Transcription failed to produce an output from the prompt."
  | some po =>
      -- let fullText = promptOutput.text || "";
      let fullText := po.text.getD ""
      -- const segments = promptOutput.segments || [];
      let segments := po.segments
      -- if ((!fullText || fullText.trim() === "") && segments.length > 0)
      let fullText :=
        if (fullText = "" ∨ jsTrim fullText = "") ∧ 0 < segments.length then
          jsTrim (String.intercalate " " (segments.map (·.text)))
        else fullText
      -- if (fullText.trim() === "" && segments.length === 0)
      if jsTrim fullText = "" ∧ segments.length = 0 then
        .ok { text := "", segments := [] }
      else
        .ok { text := fullText, segments := segments }

/-- Predicate `isSegmentActive` from `transcript-editor.tsx`: the `currentTime` prop is
optional; an absent time means no segment is active. -/
def isSegmentActive (segment : TranscriptSegment) (currentTime : Option ℚ) : Bool :=
  match currentTime with
  | none => false
  | some t => decide (segment.start ≤ t) && decide (t ≤ segment.«end» + 1/10)

/-! ## Audio player (`audio-player.tsx`) -/

/-- The state owned by the `AudioPlayer` component, together with the two
pieces of the underlying media element the handlers consult: whether a source
is attached (`hasSrc`, i.e. the `src` prop is non-null) and the element's
`readyState`.  The element's `paused` flag mirrors `¬ isPlaying`. -/
structure PlayerState where
  isPlaying : Bool
  currentTime : ℚ
  duration : ℚ
  volume : ℚ
  isMuted : Bool
  isLoading : Bool
  error : Option String
  hasSrc : Bool
  readyState : ℕ
deriving DecidableEq, Repr

/-- Handler `handlePlayPause`: toggles playback.  A successful `play()` fires the
`onPlay` handler (`setIsPlaying(true); setIsLoading(false); setError(null)`);
`pause()` fires `onPause` (`setIsPlaying(false)`); with `readyState < 2` the
element is asked to load instead (`setIsLoading(true); setError(null)`). -/
def handlePlayPause (p : PlayerState) : PlayerState :=
  if !p.hasSrc then p
  else if p.isPlaying then { p with isPlaying := false }
  else if 2 ≤ p.readyState then { p with isPlaying := true, isLoading := false, error := none }
  else { p with isLoading := true, error := none }

/-- Method `seekTo` from `audio-player.tsx`: only applies when `duration > 0`, clamps
the requested time to `[0, duration]`, and attempts to start playback when the
element is paused. -/
def seekTo (p : PlayerState) (time : ℚ) : PlayerState :=
  if 0 < p.duration then
    let validTime := max 0 (min p.duration time)
    let p1 := { p with currentTime := validTime }
    if !p1.isPlaying then handlePlayPause p1 else p1
  else p

/-- The imperative `pause` method exposed through the component ref. -/
def pause (p : PlayerState) : PlayerState :=
  if p.isPlaying then handlePlayPause p else p

/-- The imperative `play` method exposed through the component ref. -/
def play (p : PlayerState) : PlayerState :=
  if !p.isPlaying then handlePlayPause p else p

/-- The `useEffect [src]` body in `audio-player.tsx`: whenever the `src` prop
changes, playback stops, position and duration are discarded, and the element
reloads (so `readyState` drops back to 0). -/
def playerSrcEffect (p : PlayerState) (src : Option String) : PlayerState :=
  { p with isPlaying := false, currentTime := 0, duration := 0,
           isLoading := src.isSome, error := none,
           hasSrc := src.isSome, readyState := 0 }

/-! ## Page state and handlers (`app/page.tsx`) -/

/-- Toast variants used by the page (`useToast`): the default style and the
destructive (error) style. -/
inductive ToastVariant
  | default
  | destructive
deriving DecidableEq, Repr

/-- A toast notification as issued by the page handlers. -/
structure Toast where
  title : String
  description : String
  variant : ToastVariant
deriving DecidableEq, Repr

/-- The `useState` fields of the `Home` component in `page.tsx`, plus the
`progressIntervalRef` timer slot and the audio player owned through
`audioPlayerRef`.  A `File` is modelled by its name. -/
structure AppState where
  selectedFile : Option String
  youtubeUrl : String
  audioSrc : Option String
  transcriptSegments : List TranscriptSegment
  fullTranscript : String
  language : String
  summaryPrompt : String
  summary : String
  isProcessingFile : Bool
  isProcessingYouTube : Bool
  isSummarizing : Bool
  currentAudioTime : ℚ
  youtubePlaceholderMessage : Option String
  transcriptionProgress : ℕ
  aiSuggestions : List String
  selectedAiPrompt : String
  progressInterval : Option ℕ
  player : PlayerState
deriving DecidableEq, Repr

/-- Handler `handleClearAndReset` from `page.tsx`, setter by setter in source order:
cancel the progress interval, clear the file-processing flag and progress,
clear the selected file, clear all YouTube state, clear transcript, summary
and AI-suggestion state, zero the mirrored audio time, and pause and seek the
audio player to zero through its ref. -/
def handleClearAndReset (s : AppState) : AppState × Toast :=
  let s := { s with progressInterval := none }
  let s := { s with isProcessingFile := false, transcriptionProgress := 0,
                    selectedFile := none }
  let s := { s with youtubeUrl := "", youtubePlaceholderMessage := none,
                    isProcessingYouTube := false }
  let s := { s with transcriptSegments := [], fullTranscript := "", summary := "",
                    summaryPrompt := "", selectedAiPrompt := "", aiSuggestions := [] }
  let s := { s with currentAudioTime := 0, player := seekTo (pause s.player) 0 }
  (s, { title := "Form Cleared",
        description := "Ready for a new file or YouTube URL.",
        variant := .default })

/-- The `useEffect [selectedFile, isProcessingFile]` body in `page.tsx`
restricted to the `selectedFile = null` arm, composed with the player's own
`useEffect [src]` which fires when the `src` prop actually changes.
`resetSettled` is `handleClearAndReset` followed by these effects, i.e. the
state once React has flushed the render triggered by the handler. -/
def resetSettled (s : AppState) : AppState :=
  let s1 := (handleClearAndReset s).1
  -- the page effect reruns only when its dependencies changed
  if s.selectedFile.isSome || s.isProcessingFile then
    let s2 := { s1 with audioSrc := none }
    -- the player effect reruns only when the src prop changed
    if s1.audioSrc.isSome then { s2 with player := playerSrcEffect s2.player none }
    else s2
  else s1

/-- Synchronous prefix of `handleProcessFile` (everything before the first
`await`): raise the processing flag, clear transcript/summary/progress state,
reset the player, clear YouTube state, clear any pre-existing progress
interval and install a fresh one whose captured `currentProgress` is 0. -/
def handleProcessFileStart (s : AppState) : AppState :=
  let s := { s with isProcessingFile := true, transcriptSegments := [],
                    fullTranscript := "", summary := "",
                    transcriptionProgress := 0, currentAudioTime := 0 }
  let s := { s with player := seekTo (pause s.player) 0 }
  let s := { s with youtubeUrl := "", youtubePlaceholderMessage := none,
                    isProcessingYouTube := false }
  { s with progressInterval := some 0 }

/-- One firing of the progress-simulation interval callback installed by
`handleProcessFile`: `currentProgress += 5`, then publish it while it is
below 95 and clamp the published value at 95 otherwise. -/
def progressTick (s : AppState) : AppState :=
  match s.progressInterval with
  | none => s
  | some currentProgress =>
      let c := currentProgress + 5
      if c < 95 then { s with progressInterval := some c, transcriptionProgress := c }
      else { s with progressInterval := some c, transcriptionProgress := 95 }

/-- The continuation of `handleProcessFile` after the transcription call
settles: the rest of the `try` block on a result, the `catch` block on a
thrown error message, and the `finally` block on both paths.  All of it runs
in one microtask, so it is one atomic step of the model. -/
def handleProcessFileSettle (s : AppState)
    (result : Except String TranscribeAudioOutput) : AppState × Toast :=
  match result with
  | .ok r =>
      let s := { s with progressInterval := none, transcriptionProgress := 100,
                        transcriptSegments := r.segments, fullTranscript := r.text }
      let t : Toast :=
        if (r.text = "" ∨ jsTrim r.text = "") ∧ r.segments.length = 0 then
          { title := "Processing Note",
            description := "Transcription complete, but the AI returned no content. The audio might be silent or in an unsupported format/language for the AI model.",
            variant := .default }
        else
          { title := "Processing Complete",
            description := "Transcript generated successfully.",
            variant := .default }
      ({ s with isProcessingFile := false }, t)
  | .error msg =>
      let s := { s with progressInterval := none, transcriptionProgress := 0,
                        transcriptSegments := [], fullTranscript := "" }
      ({ s with isProcessingFile := false },
       { title := "Processing Error",
         description := "Failed to process file: " ++
           (if msg = "" then "Please try again." else msg),
         variant := .destructive })

/-- The observable state of one file-processing attempt with `n` interval
firings before the transcription call settles with `result`: index `0` is the
state right after the synchronous start, indices `1 … n` follow the interval
firings, and every index past `n` is the settled state. -/
def attemptState (s0 : AppState) (result : Except String TranscribeAudioOutput)
    (n i : ℕ) : AppState :=
  if i ≤ n then progressTick^[i] (handleProcessFileStart s0)
  else (handleProcessFileSettle (progressTick^[n] (handleProcessFileStart s0)) result).1

/-- Handler `handleYouTubeUrlChange` from `page.tsx`.  Note that when a file is
selected or file-processing is active, the handler calls
`handleClearAndReset`, whose `setYoutubeUrl('')` supersedes the
`setYoutubeUrl(newUrl)` issued at the top of the handler. -/
def handleYouTubeUrlChange (s : AppState) (newUrl : String) : AppState × List Toast :=
  let s1 := { s with youtubeUrl := newUrl }
  if jsTrim newUrl ≠ "" then
    let (s2, ts) :=
      if s1.selectedFile.isSome || s1.isProcessingFile then
        let (r, t) := handleClearAndReset s1
        (r, [t])
      else (s1, [])
    let s3 := { s2 with youtubePlaceholderMessage := none, transcriptSegments := [],
                        fullTranscript := "", summary := "", audioSrc := none,
                        player := seekTo (pause s2.player) 0 }
    (s3, ts)
  else
    ({ s1 with youtubePlaceholderMessage := none }, [])

/-- The placeholder message built by `handleProcessYouTubeUrl` for the URL
captured by the handler's closure. -/
def youtubePlaceholderText (url : String) : String :=
  "Full transcription for YouTube URLs (like \"" ++ url ++
  "\") is a feature currently under development and not yet functional.\n\n" ++
  "This is because it requires a backend service to fetch and process the video's audio, which is beyond the current scope.\n\n" ++
  "Please use the file upload feature for transcription at this time."

/-- Handler `handleProcessYouTubeUrl` from `page.tsx`, up to and excluding the
trailing `setTimeout`.  The `url` used by the placeholder template is the
render-scoped `youtubeUrl` captured when the handler starts, even when the
intervening reset clears the `youtubeUrl` state field. -/
def handleProcessYouTubeUrl (s : AppState) : AppState × List Toast :=
  let url := s.youtubeUrl
  if jsTrim url = "" then
    (s, [{ title := "No URL",
           description := "Please enter a YouTube video URL.",
           variant := .default }])
  else
    let (s1, ts) :=
      if s.selectedFile.isSome || s.isProcessingFile then
        let (r, t) := handleClearAndReset s
        (r, [t])
      else (s, [])
    let s2 := { s1 with isProcessingYouTube := true, isProcessingFile := false,
                        progressInterval := none, transcriptionProgress := 0,
                        audioSrc := none, transcriptSegments := [],
                        fullTranscript := "", summary := "", currentAudioTime := 0 }
    let s3 := { s2 with player := seekTo (pause s2.player) 0 }
    let s4 := { s3 with youtubePlaceholderMessage := some (youtubePlaceholderText url) }
    (s4, ts ++ [{ title := "YouTube Feature Not Active",
                  description := "Actual transcription for YouTube URLs is not yet implemented. This is a placeholder. Please use file upload.",
                  variant := .default }])

/-- The `setTimeout(() => setIsProcessingYouTube(false), 500)` callback at the
end of `handleProcessYouTubeUrl`. -/
def processYouTubeTimeout (s : AppState) : AppState :=
  { s with isProcessingYouTube := false }

/-- Handler `handleFileSelected` from `page.tsx`, with its deferred
`setSelectedFile(file); handleProcessFile(file, language)` timeout inlined as
the next step: when YouTube state is active the full reset runs first. -/
def handleFileSelected (s : AppState) (file : String) : AppState :=
  if jsTrim s.youtubeUrl ≠ "" ∨ s.youtubePlaceholderMessage.isSome then
    let s1 := (handleClearAndReset s).1
    handleProcessFileStart { s1 with selectedFile := some file }
  else
    handleProcessFileStart { s with selectedFile := some file }

/-! ## Derived disablement predicates (`page.tsx`, render body) -/

/-- Derived `isAnyProcessingActive = isProcessingFile || isProcessingYouTube`. -/
def isAnyProcessingActive (s : AppState) : Bool :=
  s.isProcessingFile || s.isProcessingYouTube

/-- Derived `fileUploadDisabled = isAnyProcessingActive || !!youtubeUrl.trim()`. -/
def fileUploadDisabled (s : AppState) : Bool :=
  isAnyProcessingActive s || !(jsTrim s.youtubeUrl == "")

/-- Derived `youtubeInputDisabled = isAnyProcessingActive || !!selectedFile`. -/
def youtubeInputDisabled (s : AppState) : Bool :=
  isAnyProcessingActive s || s.selectedFile.isSome

/-- Derived `processYoutubeButtonDisabled =
!youtubeUrl.trim() || isAnyProcessingActive || !!selectedFile`. -/
def processYoutubeButtonDisabled (s : AppState) : Bool :=
  (jsTrim s.youtubeUrl == "") || isAnyProcessingActive s || s.selectedFile.isSome

/-- State invariant maintained by every reachable (render-settled) state of
the page: it ties the player's view of the media element to the page's
`audioSrc`/`selectedFile`.  It holds in the initial mount state (everything
empty/zero) and is preserved by every handler together with its effect flush;
the reset-totality theorem is proved for every state satisfying it. -/
def Inv (s : AppState) : Prop :=
  (s.player.duration = 0 → s.player.currentTime = 0) ∧
  (s.selectedFile = none → s.audioSrc = none) ∧
  (s.audioSrc = none → s.player.hasSrc = false ∧ s.player.duration = 0) ∧
  (s.player.hasSrc = false → s.player.isPlaying = false)

/-! ## Concrete states -/

/-- The mount state of the page: every `useState` initial value from
`page.tsx` and `audio-player.tsx` (`language` defaults to `'de'`, the player
volume to 1, everything else empty/zero/false). -/
def initialState : AppState where
  selectedFile := none
  youtubeUrl := ""
  audioSrc := none
  transcriptSegments := []
  fullTranscript := ""
  language := "de"
  summaryPrompt := ""
  summary := ""
  isProcessingFile := false
  isProcessingYouTube := false
  isSummarizing := false
  currentAudioTime := 0
  youtubePlaceholderMessage := none
  transcriptionProgress := 0
  aiSuggestions := []
  selectedAiPrompt := ""
  progressInterval := none
  player := { isPlaying := false, currentTime := 0, duration := 0, volume := 1,
              isMuted := false, isLoading := false, error := none,
              hasSrc := false, readyState := 0 }

/-- A state reached by transcribing `meeting.mp3` and then starting a
summarization: the summarizing flag is up while a transcript and its audio
are loaded. -/
def summarizingState : AppState :=
  { initialState with
      selectedFile := some "meeting.mp3"
      audioSrc := some "objectUrl:meeting.mp3"
      transcriptSegments := [⟨0, 1, "Hello"⟩, ⟨1, 2, "world"⟩]
      fullTranscript := "Hello world"
      summaryPrompt := "Summarize briefly"
      isSummarizing := true
      transcriptionProgress := 100
      player := { initialState.player with hasSrc := true, duration := 2, readyState := 4 } }

/-- A state in the middle of a file-processing attempt (simulated progress at
40) for `meeting.mp3`. -/
def fileProcessingState : AppState :=
  { initialState with
      selectedFile := some "meeting.mp3"
      audioSrc := some "objectUrl:meeting.mp3"
      isProcessingFile := true
      transcriptionProgress := 40
      progressInterval := some 40
      player := { initialState.player with hasSrc := true } }

/-- A state with the URL `https://x/y` entered and nothing else active. -/
def urlStateA : AppState := { initialState with youtubeUrl := "https://x/y" }

/-- A state with the URL `https://x/z` entered and nothing else active. -/
def urlStateB : AppState := { initialState with youtubeUrl := "https://x/z" }

/-! ## Helper lemmas -/

theorem jsTrim_empty : jsTrim "" = "" := rfl

theorem handlePlayPause_currentTime (p : PlayerState) :
    (handlePlayPause p).currentTime = p.currentTime := by
  unfold handlePlayPause
  repeat' split
  all_goals rfl

theorem pause_seekTo_stationary (p : PlayerState) (hplay : p.isPlaying = false)
    (hd : p.duration = 0) : seekTo (pause p) 0 = p := by
  simp [pause, hplay, seekTo, hd]

theorem handleProcessFileSettle_isProcessingFile (u : AppState)
    (res : Except String TranscribeAudioOutput) :
    (handleProcessFileSettle u res).1.isProcessingFile = false := by
  cases res <;> simp [handleProcessFileSettle]

theorem handleProcessFileSettle_progress (u : AppState)
    (res : Except String TranscribeAudioOutput) :
    (handleProcessFileSettle u res).1.transcriptionProgress =
      (match res with | .ok _ => 100 | .error _ => 0) := by
  cases res <;> simp [handleProcessFileSettle]

theorem progressTick_fields (u : AppState) (c : ℕ) (h : u.progressInterval = some c) :
    (progressTick u).progressInterval = some (c + 5) ∧
    (progressTick u).transcriptionProgress = min (c + 5) 95 ∧
    (progressTick u).isProcessingFile = u.isProcessingFile := by
  unfold progressTick
  rw [h]
  by_cases hc : c + 5 < 95 <;> simp [hc] <;> omega

theorem attempt_tick_fields (s : AppState) (k : ℕ) :
    (progressTick^[k] (handleProcessFileStart s)).progressInterval = some (5 * k) ∧
    (progressTick^[k] (handleProcessFileStart s)).transcriptionProgress = min (5 * k) 95 ∧
    (progressTick^[k] (handleProcessFileStart s)).isProcessingFile = true := by
  induction k with
  | zero => simp [handleProcessFileStart]
  | succ k ih =>
      obtain ⟨h1, h2, h3⟩ := ih
      obtain ⟨g1, g2, g3⟩ := progressTick_fields _ _ h1
      refine ⟨?_, ?_, ?_⟩
      · rw [Function.iterate_succ_apply', g1, Nat.mul_succ]
      · rw [Function.iterate_succ_apply', g2, Nat.mul_succ]
      · rw [Function.iterate_succ_apply', g3, h3]

theorem attemptState_of_le (s0 : AppState) (res : Except String TranscribeAudioOutput)
    (n i : ℕ) (hi : i ≤ n) :
    attemptState s0 res n i = progressTick^[i] (handleProcessFileStart s0) := by
  unfold attemptState
  rw [if_pos hi]

theorem attemptState_of_gt (s0 : AppState) (res : Except String TranscribeAudioOutput)
    (n i : ℕ) (hi : ¬ i ≤ n) :
    attemptState s0 res n i =
      (handleProcessFileSettle (progressTick^[n] (handleProcessFileStart s0)) res).1 := by
  unfold attemptState
  rw [if_neg hi]

/-! ## Claim theorems -/

/-- C4: a segment `{start, end, text}` is marked active at playback time `t`
iff `start ≤ t ≤ end + 0.1`; in particular for `{start := 2, end := 5}`,
`t = 5.05` is active and `t = 5.2` is not. -/
theorem segment_activation_correct :
    (∀ (seg : TranscriptSegment) (t : ℚ),
        isSegmentActive seg (some t) = true ↔ seg.start ≤ t ∧ t ≤ seg.«end» + 1/10) ∧
    isSegmentActive ⟨2, 5, "x"⟩ (some (101/20)) = true ∧
    isSegmentActive ⟨2, 5, "x"⟩ (some (26/5)) = false := by
  refine ⟨?_, by norm_num [isSegmentActive], by norm_num [isSegmentActive]⟩
  intro seg t
  simp [isSegmentActive]

/-- Witness for C4: the activation predicate evaluated at the concrete
segment `{2, 5}` and time `3`. -/
theorem segment_activation_correct_witness :
    isSegmentActive ⟨2, 5, "x"⟩ (some 3) = true :=
  (segment_activation_correct.1 ⟨2, 5, "x"⟩ 3).mpr (by norm_num)

/-- C9: `seekTo` applies a seek only when `duration > 0`, clamping the
requested time to `[0, duration]`; with `duration = 0` the request is a
no-op on the playback state. -/
theorem seekTo_clamps (p : PlayerState) (t : ℚ) :
    (p.duration = 0 → seekTo p t = p) ∧
    (0 < p.duration → (seekTo p t).currentTime = max 0 (min p.duration t)) := by
  constructor
  · intro h
    simp [seekTo, h]
  · intro h
    simp only [seekTo, if_pos h]
    split
    · rw [handlePlayPause_currentTime]
    · rfl

/-- Witness for C9: a zero-duration player ignores a seek to 5; a player with
duration 10 clamps a seek to 20 down to 10. -/
theorem seekTo_clamps_witness :
    seekTo initialState.player 5 = initialState.player ∧
    (seekTo { initialState.player with hasSrc := true, duration := 10, readyState := 4 } 20).currentTime = 10 :=
  ⟨(seekTo_clamps initialState.player 5).1 rfl,
   by
     have h := (seekTo_clamps { initialState.player with hasSrc := true, duration := 10, readyState := 4 } 20).2 (by norm_num)
     rw [h]; norm_num⟩

/-- C10: when the prompt output's `text` is missing or only whitespace but
segments are present, `transcribeAudioFlow` returns the segment texts joined
with single spaces and trimmed; when the text is empty and the segment list
is empty it returns exactly `{ text := "", segments := [] }` without
raising. -/
theorem transcribeAudioFlow_defaults (po : TranscribeAudioPromptOutput) :
    (jsTrim (po.text.getD "") = "" → po.segments ≠ [] →
      transcribeAudioFlow (some po) =
        .ok { text := jsTrim (String.intercalate " " (po.segments.map (·.text))),
              segments := po.segments }) ∧
    (po.text.getD "" = "" → po.segments = [] →
      transcribeAudioFlow (some po) = .ok { text := "", segments := [] }) := by
  constructor
  · intro htext hsegs
    have hlen : 0 < po.segments.length := List.length_pos.mpr hsegs
    simp only [transcribeAudioFlow]
    split_ifs with h1 h2
    · exact absurd h2.2 (by omega)
    · rfl
    · exact absurd ⟨Or.inr htext, hlen⟩ h1
    · exact absurd ⟨Or.inr htext, hlen⟩ h1
  · intro htext hsegs
    simp only [transcribeAudioFlow]
    rw [htext, hsegs]
    simp [jsTrim_empty]

/-- Witness for C10: a prompt output with no `text` field and segments
`Hello` / `world`, and a prompt output with empty text and no segments. -/
theorem transcribeAudioFlow_defaults_witness :
    transcribeAudioFlow (some ⟨none, [⟨0, 1, "Hello"⟩, ⟨1, 2, "world"⟩]⟩) =
      .ok { text := jsTrim (String.intercalate " "
              (([⟨0, 1, "Hello"⟩, ⟨1, 2, "world"⟩] : List TranscriptSegment).map (·.text))),
            segments := [⟨0, 1, "Hello"⟩, ⟨1, 2, "world"⟩] } ∧
    transcribeAudioFlow (some ⟨some "", []⟩) = .ok { text := "", segments := [] } :=
  ⟨(transcribeAudioFlow_defaults ⟨none, [⟨0, 1, "Hello"⟩, ⟨1, 2, "world"⟩]⟩).1 rfl (by simp),
   (transcribeAudioFlow_defaults ⟨some "", []⟩).2 rfl rfl⟩

/-- C5: on a thrown transcription error, the settle step cancels the
simulation timer, forces progress to 0, clears segments and full transcript,
and raises a destructive toast whose description carries the error's message
text. -/
theorem processFile_failure_clears (s : AppState) (msg : String) (hmsg : msg ≠ "") :
    (handleProcessFileSettle s (.error msg)).1.progressInterval = none ∧
    (handleProcessFileSettle s (.error msg)).1.transcriptionProgress = 0 ∧
    (handleProcessFileSettle s (.error msg)).1.transcriptSegments = [] ∧
    (handleProcessFileSettle s (.error msg)).1.fullTranscript = "" ∧
    (handleProcessFileSettle s (.error msg)).1.isProcessingFile = false ∧
    (handleProcessFileSettle s (.error msg)).2.variant = .destructive ∧
    (handleProcessFileSettle s (.error msg)).2.description =
      "Failed to process file: " ++ msg := by
  simp [handleProcessFileSettle, hmsg]

/-- Witness for C5: the failure settle step evaluated at the mid-processing
state with error message `boom`. -/
theorem processFile_failure_clears_witness :
    (handleProcessFileSettle fileProcessingState (.error "boom")).2.description =
      "Failed to process file: " ++ "boom" :=
  (processFile_failure_clears fileProcessingState "boom" (by decide)).2.2.2.2.2.2

/-- C6: a capability result `{ text := "", segments := [] }` settles as a
success: progress is forced to 100, the transcript is set to the empty
list/string, an informational (default-styled, not destructive) toast is
shown, and the file-processing flag ends false. -/
theorem processFile_emptySuccess (s : AppState) :
    (handleProcessFileSettle s (.ok ⟨"", []⟩)).1.transcriptionProgress = 100 ∧
    (handleProcessFileSettle s (.ok ⟨"", []⟩)).1.transcriptSegments = [] ∧
    (handleProcessFileSettle s (.ok ⟨"", []⟩)).1.fullTranscript = "" ∧
    (handleProcessFileSettle s (.ok ⟨"", []⟩)).1.isProcessingFile = false ∧
    (handleProcessFileSettle s (.ok ⟨"", []⟩)).1.progressInterval = none ∧
    (handleProcessFileSettle s (.ok ⟨"", []⟩)).2.title = "Processing Note" ∧
    (handleProcessFileSettle s (.ok ⟨"", []⟩)).2.variant = .default := by
  simp [handleProcessFileSettle]

/-- C3: over the whole observable timeline of a file-processing attempt
(synchronous start, `n` simulation ticks, settle), the progress value — a
natural number by construction, hence an integer ≥ 0 — never exceeds 100,
never decreases while the file-processing flag is true, is capped at 95 by
the simulation ticks until the transcription call settles, and is then set to
exactly 100 on success and exactly 0 on failure. -/
theorem progress_bounded_monotone (s0 : AppState)
    (res : Except String TranscribeAudioOutput) (n : ℕ) :
    (∀ i, (attemptState s0 res n i).transcriptionProgress ≤ 100) ∧
    (∀ i j, i ≤ j → (attemptState s0 res n j).isProcessingFile = true →
        (attemptState s0 res n i).transcriptionProgress ≤
          (attemptState s0 res n j).transcriptionProgress) ∧
    (∀ i, i ≤ n → (attemptState s0 res n i).transcriptionProgress ≤ 95) ∧
    (∀ r, res = .ok r → (attemptState s0 res n (n + 1)).transcriptionProgress = 100) ∧
    (∀ e, res = .error e → (attemptState s0 res n (n + 1)).transcriptionProgress = 0) := by
  refine ⟨?_, ?_, ?_, ?_, ?_⟩
  · intro i
    by_cases hi : i ≤ n
    · rw [attemptState_of_le s0 res n i hi, (attempt_tick_fields s0 i).2.1]
      omega
    · rw [attemptState_of_gt s0 res n i hi, handleProcessFileSettle_progress]
      cases res <;> simp
  · intro i j hij hflag
    by_cases hj : j ≤ n
    · rw [attemptState_of_le s0 res n j hj, (attempt_tick_fields s0 j).2.1]
      rw [attemptState_of_le s0 res n i (le_trans hij hj), (attempt_tick_fields s0 i).2.1]
      omega
    · rw [attemptState_of_gt s0 res n j hj,
        handleProcessFileSettle_isProcessingFile] at hflag
      exact absurd hflag (by simp)
  · intro i hi
    rw [attemptState_of_le s0 res n i hi, (attempt_tick_fields s0 i).2.1]
    omega
  · intro r hr
    subst hr
    rw [attemptState_of_gt s0 _ n (n + 1) (by omega), handleProcessFileSettle_progress]
  · intro e he
    subst he
    rw [attemptState_of_gt s0 _ n (n + 1) (by omega), handleProcessFileSettle_progress]

/-- Witness for C3: a four-tick successful attempt started from the mount
state is monotone between observation points 2 and 3 and ends at progress
100. -/
theorem progress_bounded_monotone_witness :
    (attemptState initialState (.ok ⟨"", []⟩) 3 2).transcriptionProgress ≤
      (attemptState initialState (.ok ⟨"", []⟩) 3 3).transcriptionProgress ∧
    (attemptState initialState (.ok ⟨"", []⟩) 3 4).transcriptionProgress = 100 :=
  ⟨(progress_bounded_monotone initialState (.ok ⟨"", []⟩) 3).2.1 2 3 (by omega)
     ((attempt_tick_fields initialState 3).2.2),
   (progress_bounded_monotone initialState (.ok ⟨"", []⟩) 3).2.2.2.1 ⟨"", []⟩ rfl⟩

/-- C1 counterexample: the claim asserts the reset leaves the summarizing
flag false, but `handleClearAndReset` never touches `isSummarizing`.  In the
reachable state `summarizingState` (summarization in flight over a settled
transcript) the settled reset leaves `isSummarizing = true`. -/
theorem reset_keeps_summarizing_counterexample :
    summarizingState.isSummarizing = true ∧
    (resetSettled summarizingState).isSummarizing = true := by
  exact ⟨rfl, rfl⟩

/-- C1 (amended): for every state satisfying the reachable-state invariant
`Inv`, the settled reset yields the canonical empty state — timer cancelled,
file-processing and URL-processing flags false, inputs and placeholder
cleared, transcript/summary/prompt/suggestion state empty, progress zero and
the audio transport paused at position zero — except that the summarizing
flag is left unchanged (the code never clears `isSummarizing`). -/
theorem reset_total (s : AppState) (hInv : Inv s) :
    (resetSettled s).progressInterval = none ∧
    (resetSettled s).isProcessingFile = false ∧
    (resetSettled s).isProcessingYouTube = false ∧
    (resetSettled s).selectedFile = none ∧
    (resetSettled s).youtubeUrl = "" ∧
    (resetSettled s).youtubePlaceholderMessage = none ∧
    (resetSettled s).transcriptSegments = [] ∧
    (resetSettled s).fullTranscript = "" ∧
    (resetSettled s).summary = "" ∧
    (resetSettled s).summaryPrompt = "" ∧
    (resetSettled s).selectedAiPrompt = "" ∧
    (resetSettled s).aiSuggestions = [] ∧
    (resetSettled s).transcriptionProgress = 0 ∧
    (resetSettled s).currentAudioTime = 0 ∧
    (resetSettled s).player.isPlaying = false ∧
    (resetSettled s).player.currentTime = 0 ∧
    (resetSettled s).isSummarizing = s.isSummarizing := by
  obtain ⟨h1, h2, h3, h4⟩ := hInv
  by_cases c1 : (s.selectedFile.isSome || s.isProcessingFile) = true
  · by_cases c2 : s.audioSrc.isSome = true
    · simp [resetSettled, handleClearAndReset, c1, c2, playerSrcEffect]
    · have hsrc : s.audioSrc = none := by
        cases h : s.audioSrc
        · rfl
        · rw [h] at c2; simp at c2
      obtain ⟨hhs, hdur⟩ := h3 hsrc
      have hplay := h4 hhs
      have hct := h1 hdur
      simp [resetSettled, handleClearAndReset, c1, hsrc, pause, seekTo, hplay, hdur, hct]
  · rw [Bool.or_eq_true] at c1
    push_neg at c1
    obtain ⟨ha, hb⟩ := c1
    have hsel : s.selectedFile = none := by
      cases h : s.selectedFile
      · rfl
      · rw [h] at ha; simp at ha
    have hb' : s.isProcessingFile = false := by
      cases h : s.isProcessingFile
      · rfl
      · exact absurd h hb
    have hsrc := h2 hsel
    obtain ⟨hhs, hdur⟩ := h3 hsrc
    have hplay := h4 hhs
    have hct := h1 hdur
    simp [resetSettled, handleClearAndReset, hsel, hb', pause, seekTo, hplay, hdur, hct]

/-- Witness for C1: the invariant holds at `summarizingState`, and the reset
settled from there is canonical (file cleared, transcript empty, transport
at zero). -/
theorem reset_total_witness :
    (resetSettled summarizingState).selectedFile = none ∧
    (resetSettled summarizingState).fullTranscript = "" ∧
    (resetSettled summarizingState).player.currentTime = 0 := by
  have hInv : Inv summarizingState := by
    refine ⟨?_, ?_, ?_, ?_⟩ <;> intro h <;>
      simp [summarizingState, initialState] at h
  have h := reset_total summarizingState hInv
  exact ⟨h.2.2.2.1, h.2.2.2.2.2.2.2.1, h.2.2.2.2.2.2.2.2.2.2.2.2.2.2.2.1⟩

/-- C2 counterexample: typing the non-empty URL `https://x/y` while
`meeting.mp3` is mid-processing does run the full reset (file cleared,
progress back to 0), but the reset's own `setYoutubeUrl('')` supersedes the
just-entered text, so the URL is not retained as the active input. -/
theorem url_entry_not_retained_counterexample :
    (handleYouTubeUrlChange fileProcessingState "https://x/y").1.selectedFile = none ∧
    (handleYouTubeUrlChange fileProcessingState "https://x/y").1.transcriptionProgress = 0 ∧
    (handleYouTubeUrlChange fileProcessingState "https://x/y").1.youtubeUrl ≠ "https://x/y" := by
  refine ⟨rfl, rfl, ?_⟩
  decide

/-- C2 (amended): if a file is selected or file-processing is active and a
non-empty URL text is entered, the full reset runs first (progress 0, file
cleared, flags down, timer cancelled) — but the reset also clears the URL
text itself, so afterwards the URL field is empty rather than retaining the
entered text. -/
theorem url_entry_resets_first (s : AppState) (newUrl : String)
    (hActive : s.selectedFile.isSome = true ∨ s.isProcessingFile = true)
    (hUrl : jsTrim newUrl ≠ "") :
    (handleYouTubeUrlChange s newUrl).1.transcriptionProgress = 0 ∧
    (handleYouTubeUrlChange s newUrl).1.selectedFile = none ∧
    (handleYouTubeUrlChange s newUrl).1.isProcessingFile = false ∧
    (handleYouTubeUrlChange s newUrl).1.progressInterval = none ∧
    (handleYouTubeUrlChange s newUrl).1.audioSrc = none ∧
    (handleYouTubeUrlChange s newUrl).1.youtubeUrl = "" := by
  rcases hActive with h | h <;>
    simp [handleYouTubeUrlChange, hUrl, handleClearAndReset, h]

/-- Witness for C2: the amended theorem applied at `fileProcessingState` with
the entered URL `https://x/y`. -/
theorem url_entry_resets_first_witness :
    (handleYouTubeUrlChange fileProcessingState "https://x/y").1.transcriptionProgress = 0 ∧
    (handleYouTubeUrlChange fileProcessingState "https://x/y").1.youtubeUrl = "" := by
  have h := url_entry_resets_first fileProcessingState "https://x/y" (.inl rfl) (by decide)
  exact ⟨h.1, h.2.2.2.2.2⟩

/-- C7 counterexample: the placeholder message is not one fixed message — it
is built from a fixed template that embeds the entered URL, so two different
URLs yield two different messages. -/
theorem yt_placeholder_not_fixed_counterexample :
    (handleProcessYouTubeUrl urlStateA).1.youtubePlaceholderMessage ≠
      (handleProcessYouTubeUrl urlStateB).1.youtubePlaceholderMessage := by
  decide

/-- C7 (amended): for a non-empty URL text, the process-URL action performs
no transcription — it sets a placeholder explanatory message built from a
fixed template embedding the entered URL, leaves transcript segments and full
transcript empty, leaves the audio transport with no source, and the pending
timeout returns the URL-processing flag to false shortly after; for an empty
URL text the action only shows a validation notice and mutates no state. -/
theorem processYouTubeUrl_placeholder (s : AppState) :
    (jsTrim s.youtubeUrl ≠ "" →
      (handleProcessYouTubeUrl s).1.youtubePlaceholderMessage =
        some (youtubePlaceholderText s.youtubeUrl) ∧
      (handleProcessYouTubeUrl s).1.transcriptSegments = [] ∧
      (handleProcessYouTubeUrl s).1.fullTranscript = "" ∧
      (handleProcessYouTubeUrl s).1.summary = "" ∧
      (handleProcessYouTubeUrl s).1.audioSrc = none ∧
      (handleProcessYouTubeUrl s).1.isProcessingFile = false ∧
      (processYouTubeTimeout (handleProcessYouTubeUrl s).1).isProcessingYouTube = false) ∧
    (jsTrim s.youtubeUrl = "" →
      (handleProcessYouTubeUrl s).1 = s ∧
      (handleProcessYouTubeUrl s).2 =
        [{ title := "No URL",
           description := "Please enter a YouTube video URL.",
           variant := .default }]) := by
  constructor
  · intro h
    by_cases hc : (s.selectedFile.isSome || s.isProcessingFile) = true
    · simp [handleProcessYouTubeUrl, h, hc, handleClearAndReset, processYouTubeTimeout]
    · simp [handleProcessYouTubeUrl, h, hc, processYouTubeTimeout]
  · intro h
    simp [handleProcessYouTubeUrl, h]

/-- Witness for C7: the process action on the entered URL `https://x/y` sets
its placeholder, and on an empty URL it leaves the mount state untouched. -/
theorem processYouTubeUrl_placeholder_witness :
    (handleProcessYouTubeUrl urlStateA).1.youtubePlaceholderMessage =
      some (youtubePlaceholderText "https://x/y") ∧
    (handleProcessYouTubeUrl initialState).1 = initialState := by
  have hA := (processYouTubeUrl_placeholder urlStateA).1 (by decide)
  have hB := (processYouTubeUrl_placeholder initialState).2 rfl
  exact ⟨hA.1, hB.1⟩

/-- C8 counterexample: the claim's conjunct that selecting one input while
the other is active always settles with exactly one active mode fails in the
URL direction.  Entering the non-empty URL `https://a/b` while `meeting.mp3`
is the selected file settles with ZERO active modes: the reset clears the
selected file, and its `setYoutubeUrl('')` also clears the just-entered URL
text. -/
theorem url_while_file_zero_modes_counterexample :
    summarizingState.selectedFile.isSome = true ∧
    (handleYouTubeUrlChange summarizingState "https://a/b").1.selectedFile = none ∧
    (handleYouTubeUrlChange summarizingState "https://a/b").1.youtubeUrl = "" := by
  exact ⟨rfl, rfl, rfl⟩

/-- C8 (amended): at most one of the file input and the URL process action is
enabled at a time; a non-empty URL text disables the file upload; a selected
file disables both the URL input and its process button; selecting a file
while URL text is active settles with exactly the file mode active (file
selected, URL text empty, no placeholder), whereas entering a non-empty URL
while a file is selected or file-processing is active settles with zero
active modes (file cleared and URL text cleared) — so after any
cross-selection at most one, not always exactly one, mode is active. -/
theorem mode_exclusivity (s : AppState) (file newUrl : String) :
    ¬ (fileUploadDisabled s = false ∧ processYoutubeButtonDisabled s = false) ∧
    (jsTrim s.youtubeUrl ≠ "" → fileUploadDisabled s = true) ∧
    (s.selectedFile.isSome = true →
      youtubeInputDisabled s = true ∧ processYoutubeButtonDisabled s = true) ∧
    (jsTrim s.youtubeUrl ≠ "" →
      (handleFileSelected s file).selectedFile = some file ∧
      (handleFileSelected s file).youtubeUrl = "" ∧
      (handleFileSelected s file).youtubePlaceholderMessage = none ∧
      (handleFileSelected s file).isProcessingFile = true) ∧
    ((s.selectedFile.isSome = true ∨ s.isProcessingFile = true) → jsTrim newUrl ≠ "" →
      (handleYouTubeUrlChange s newUrl).1.selectedFile = none ∧
      (handleYouTubeUrlChange s newUrl).1.isProcessingFile = false ∧
      (handleYouTubeUrlChange s newUrl).1.youtubeUrl = "") := by
  refine ⟨?_, ?_, ?_, ?_, ?_⟩
  · rintro ⟨hf, hp⟩
    simp [fileUploadDisabled, isAnyProcessingActive] at hf
    simp [processYoutubeButtonDisabled, isAnyProcessingActive] at hp
    simp_all
  · intro h
    simp [fileUploadDisabled, isAnyProcessingActive, h]
  · intro h
    simp [youtubeInputDisabled, processYoutubeButtonDisabled, isAnyProcessingActive, h]
  · intro h
    simp [handleFileSelected, h, handleClearAndReset, handleProcessFileStart]
  · intro hActive hUrl
    rcases hActive with h | h <;>
      simp [handleYouTubeUrlChange, hUrl, handleClearAndReset, h]

/-- Witness for C8: with the URL `https://x/y` entered, the file upload is
disabled and selecting `meeting.mp3` anyway settles into file mode only;
with `meeting.mp3` selected, entering `https://c/d` settles with the URL
text empty. -/
theorem mode_exclusivity_witness :
    fileUploadDisabled urlStateA = true ∧
    (handleFileSelected urlStateA "meeting.mp3").selectedFile = some "meeting.mp3" ∧
    (handleFileSelected urlStateA "meeting.mp3").youtubeUrl = "" ∧
    (handleYouTubeUrlChange summarizingState "https://c/d").1.youtubeUrl = "" := by
  have h := mode_exclusivity urlStateA "meeting.mp3" "https://c/d"
  have h4 := h.2.2.2.1 (by decide)
  have h5 := (mode_exclusivity summarizingState "meeting.mp3" "https://c/d").2.2.2.2
    (.inl rfl) (by decide)
  exact ⟨h.2.1 (by decide), h4.1, h4.2.1, h5.2.2⟩

end XTranscribe
